import Mathlib

/-!
Verification development for paswitch (src/paswitch-src/main.c), a PulseAudio
command-line sink switcher.  The C program is a callback-driven state machine:
each C function below is embedded as a Lean function that returns the list of
observable actions it performs (prints, requests issued to the service, loop
quit calls, resource management calls).  The PulseAudio mainloop is embedded as
a step function over a list of delivered events, and `main` as a trace-producing
function parameterised by which library calls succeed.
-/

namespace Paswitch

/-- Update mode of a stream-restore write (pa_update_mode_t):
PA_UPDATE_SET, PA_UPDATE_MERGE, PA_UPDATE_REPLACE. -/
inductive UpdateMode where
  | set
  | merge
  | replace
deriving DecidableEq, Repr

/-- One stream-restore record (pa_ext_stream_restore_info, main.c:87).
The program copies the channel map and volume wholesale without inspecting
them, so they are modelled as opaque numbers; mute is a C int. -/
structure StreamRestoreInfo where
  name : String
  channel_map : Nat
  volume : Nat
  mute : Int
  device : String
deriving DecidableEq, Repr

/-- Observable actions of the program: console output, loop-quit requests,
asynchronous requests issued to the PulseAudio service, and resource
management calls. -/
inductive Action where
  | print (msg : String)
  | quit (code : Int)
  | setDefaultSinkReq (sink : String)
  | streamRestoreReadReq (userdata : String)
  | writeReq (mode : UpdateMode) (info : StreamRestoreInfo) (n : Nat) (apply_immediately : Nat)
  | drainRequested
  | disconnect
  | mainloopNew
  | proplistNew
  | proplistFree
  | contextNew
  | connectReq
  | setStateCallback (userdata : String)
  | mainloopRun
  | contextUnref
  | signalDone
  | mainloopFree
deriving DecidableEq, Repr

/-- Connection states of a pa_context (pa_context_state_t). -/
inductive CtxState where
  | unconnected
  | connecting
  | authorizing
  | setting_name
  | ready
  | failed
  | terminated
deriving DecidableEq, Repr

/-- context_drain_complete (main.c:63-66): on drain completion, disconnect
the context. -/
def context_drain_complete : List Action :=
  [Action.disconnect]

/-- drain (main.c:68-76): ask the service to drain; if the drain operation
cannot be created (pa_context_drain returned NULL), disconnect immediately;
otherwise just unref the operation handle.  `drainOpCreated` models whether
pa_context_drain returned a non-NULL operation. -/
def drain (drainOpCreated : Bool) : List Action :=
  if drainOpCreated then [Action.drainRequested]
  else [Action.disconnect]

/-- success_cb (main.c:78-84): completion callback shared by the
set-default-sink and stream-restore-write operations.  On failure
(success = 0) it prints the service error string and quits the loop with
status 1; on success it does nothing.  `errStr` models
pa_strerror(pa_context_errno(c)). -/
def success_cb (success : Int) (errStr : String) : List Action :=
  if success = 0 then [Action.print errStr, Action.quit 1]
  else []

/-- stream_restore_cb (main.c:86-119): enumeration callback.  On end-of-list
it calls drain and returns without touching the record, so the record argument
is an Option and the result is defined (some) even when it is none; otherwise
it builds new_info copying name, channel_map, volume and mute from the
delivered record and setting device to the userdata string, then issues a
write in PA_UPDATE_REPLACE mode with n = 1 and apply_immediately = 1.  If the
write operation cannot be created (`writeOpCreated = false`) it prints the
error and returns, issuing nothing further.  Dereferencing a missing record
outside end-of-list is undefined behaviour, modelled as none. -/
def stream_restore_cb (writeOpCreated drainOpCreated : Bool) (errStr : String)
    (info : Option StreamRestoreInfo) (eol : Bool) (userdata : String) :
    Option (List Action) :=
  if eol then some (drain drainOpCreated)
  else
    match info with
    | none => none
    | some i =>
      let new_info : StreamRestoreInfo :=
        { name := i.name
          channel_map := i.channel_map
          volume := i.volume
          mute := i.mute
          device := userdata }
      if writeOpCreated then
        some [Action.writeReq UpdateMode.replace new_info 1 1]
      else
        some [Action.print ("pa_ext_stream_restore_write() failed: " ++ errStr)]

/-- set_default_sink (main.c:121-147): issue the set-default-sink request,
then immediately issue the stream-restore read request with the sink name as
userdata, without waiting for the first completion.  Returns the action list
together with the C return value (0 on success, -1 if either operation could
not be created, in which case it prints the error and stops). -/
def set_default_sink (setSinkOpCreated readOpCreated : Bool) (errStr : String)
    (name : String) : List Action × Int :=
  if setSinkOpCreated then
    if readOpCreated then
      ([Action.setDefaultSinkReq name, Action.streamRestoreReadReq name], 0)
    else
      ([Action.setDefaultSinkReq name,
        Action.print ("pa_ext_stream_restore_read() failed: " ++ errStr)], -1)
  else
    ([Action.print ("pa_context_set_default_sink() failed: " ++ errStr)], -1)

/-- context_state_callback (main.c:149-178): the connection state callback.
Connecting, authorizing and setting-name are ignored; ready triggers
set_default_sink (quitting with 1 if it returns nonzero); terminated quits
with 0; every other state (the switch default, reached by failed and
unconnected) prints the connection failure string and quits with 1. -/
def context_state_callback (st : CtxState) (setSinkOpCreated readOpCreated : Bool)
    (errStr : String) (name : String) : List Action :=
  match st with
  | CtxState.connecting => []
  | CtxState.authorizing => []
  | CtxState.setting_name => []
  | CtxState.ready =>
    let sds := set_default_sink setSinkOpCreated readOpCreated errStr name
    if sds.2 = 0 then sds.1
    else sds.1 ++ [Action.print "set_default_sink() failed", Action.quit 1]
  | CtxState.terminated => [Action.quit 0]
  | CtxState.unconnected =>
    [Action.print ("connection failure: " ++ errStr), Action.quit 1]
  | CtxState.failed =>
    [Action.print ("connection failure: " ++ errStr), Action.quit 1]

/-- Events delivered by the PulseAudio mainloop to the program's callbacks:
context state changes, success_cb completions of the set-default-sink or
write operations, delivery of one enumerated record, the end-of-list marker
of the enumeration, and drain completion. -/
inductive Event where
  | stateChange (st : CtxState)
  | opResult (success : Int)
  | record (info : StreamRestoreInfo)
  | endOfList
  | drainComplete
deriving DecidableEq, Repr

/-- Service-side responses for one run: whether each operation-creating call
returns a non-NULL operation (writes indexed by attempt number), and the
string pa_strerror yields for the current context errno. -/
structure Env where
  setSinkOpCreated : Bool
  readOpCreated : Bool
  writeOpCreated : Nat → Bool
  drainOpCreated : Bool
  errStr : String

/-- Mainloop state threaded through event dispatch: the exit status once
some callback has called quit, and how many write attempts have been made. -/
structure LoopState where
  quitCode : Option Int
  writeAttempts : Nat
deriving DecidableEq, Repr

/-- Dispatch one delivered event to the C callback registered for it
(main.c:198 registers context_state_callback; main.c:109 and main.c:125
register success_cb; main.c:134-136 registers stream_restore_cb with the sink
name as userdata; main.c:72 registers context_drain_complete). -/
def stepEvent (env : Env) (name : String) (st : LoopState) :
    Event → LoopState × List Action
  | Event.stateChange c =>
    (st, context_state_callback c env.setSinkOpCreated env.readOpCreated env.errStr name)
  | Event.opResult s => (st, success_cb s env.errStr)
  | Event.record info =>
    ({ st with writeAttempts := st.writeAttempts + 1 },
      (stream_restore_cb (env.writeOpCreated st.writeAttempts) env.drainOpCreated
        env.errStr (some info) false name).getD [])
  | Event.endOfList =>
    (st, (stream_restore_cb (env.writeOpCreated st.writeAttempts) env.drainOpCreated
      env.errStr none true name).getD [])
  | Event.drainComplete => (st, context_drain_complete)

/-- First quit request contained in a list of actions, if any. -/
def firstQuit : List Action → Option Int
  | [] => none
  | Action.quit c :: _ => some c
  | _ :: rest => firstQuit rest

/-- pa_mainloop_run (main.c:201): deliver events in order; once some callback
has called mainloop_api->quit the loop stops dispatching and returns the
recorded status. -/
def runLoop (env : Env) (name : String) : LoopState → List Event → LoopState × List Action
  | st, [] => (st, [])
  | st, e :: es =>
    if st.quitCode.isSome then (st, [])
    else
      let p := stepEvent env name st e
      let st2 : LoopState := { p.1 with quitCode := firstQuit p.2 }
      let rest := runLoop env name st2 es
      (rest.1, p.2 ++ rest.2)

/-- One whole mainloop run from the fresh state. -/
def runProgram (env : Env) (name : String) (events : List Event) :
    LoopState × List Action :=
  runLoop env name { quitCode := none, writeAttempts := 0 } events

/-- Environment of a reachable, well-behaved service: every operation-creating
call succeeds. -/
def goodEnv (errStr : String) : Env :=
  { setSinkOpCreated := true
    readOpCreated := true
    writeOpCreated := fun _ => true
    drainOpCreated := true
    errStr := errStr }

/-- Canonical event trace of a run in which the handshake succeeds, the
service delivers the given records followed by the end-of-list marker, every
issued operation completes successfully, the drain completes, and disconnect
then yields the terminated state. -/
def normalTrace (recs : List StreamRestoreInfo) : List Event :=
  [Event.stateChange CtxState.connecting,
   Event.stateChange CtxState.authorizing,
   Event.stateChange CtxState.setting_name,
   Event.stateChange CtxState.ready] ++
  recs.map Event.record ++
  [Event.endOfList, Event.opResult 1] ++
  recs.map (fun _ => Event.opResult 1) ++
  [Event.drainComplete, Event.stateChange CtxState.terminated]

/-- The stream-restore write requests contained in an action trace, in order. -/
def writesOf (acts : List Action) : List StreamRestoreInfo :=
  acts.filterMap fun a =>
    match a with
    | Action.writeReq _ i _ _ => some i
    | _ => none

/-- Library-call outcomes for the embedding of main: whether pa_mainloop_new,
pa_context_new_with_proplist, pa_context_connect and pa_mainloop_run succeed,
the status pa_mainloop_run reports when it succeeds (the quit code), and the
pa_strerror string. -/
structure MainEnv where
  mainloopNewOk : Bool
  contextNewOk : Bool
  connectOk : Bool
  runOk : Bool
  runRet : Int
  errStr : String

/-- setup_context (main.c:25-61): create the mainloop, the proplist and the
context, free the proplist, and connect.  Returns the performed actions and
the C return value (0 on success, -1 on any failure, after printing a
diagnostic).  Note the early error returns skip the later cleanup calls. -/
def setup_context (env : MainEnv) : List Action × Int :=
  if env.mainloopNewOk then
    if env.contextNewOk then
      if env.connectOk then
        ([Action.mainloopNew, Action.proplistNew, Action.contextNew,
          Action.proplistFree, Action.connectReq], 0)
      else
        ([Action.mainloopNew, Action.proplistNew, Action.contextNew,
          Action.proplistFree,
          Action.print ("pa_context_connect() failed: " ++ env.errStr)], -1)
    else
      ([Action.mainloopNew, Action.proplistNew,
        Action.print "pa_context_new() failed."], -1)
  else
    ([Action.print "pa_mainloop_new() failed."], -1)

/-- Usage text printed by main when the argument count is wrong
(main.c:183-187), with argv[0] substituted for the format specifier. -/
def usageText (argv0 : String) : String :=
  "PulseAudio commandline sink switcher\n" ++
  "Copyright (C) 2012 by Tomaz Solc <tomaz.solc@tablix.org>\n\n" ++
  "USAGE: " ++ argv0 ++ " [ sink ]\n"

/-- main (main.c:180-212): with argc different from 2, print the usage text
and return 0; otherwise set up the context (returning 1 after a diagnostic on
failure), register the state callback with argv[1] as userdata, run the
mainloop (returning 1 after a diagnostic if pa_mainloop_run itself fails),
and on the normal path disconnect, unref the context, tear down signal
handling, free the mainloop and return the status the loop reported. -/
def main_fn (argv : List String) (env : MainEnv) : Int × List Action :=
  if argv.length ≠ 2 then
    (0, [Action.print (usageText (argv.headD ""))])
  else
    let setup := setup_context env
    if setup.2 ≠ 0 then
      (1, setup.1 ++ [Action.print "can\x27t get pulseaudio context."])
    else
      let name := (argv.drop 1).headD ""
      let acts := setup.1 ++ [Action.setStateCallback name]
      if env.runOk then
        (env.runRet, acts ++ [Action.mainloopRun, Action.disconnect,
          Action.contextUnref, Action.signalDone, Action.mainloopFree])
      else
        (1, acts ++ [Action.mainloopRun, Action.print "pa_mainloop_run() failed."])

/-! ## Helper lemmas -/

theorem writesOf_append (a b : List Action) :
    writesOf (a ++ b) = writesOf a ++ writesOf b := by
  simp [writesOf, List.filterMap_append]

/-- One delivered record under a well-behaved service: exactly one write
request is issued, built from the record with the device field replaced by
the sink name, and the loop keeps running with the attempt counter bumped. -/
theorem runLoop_record_step (err name : String) (r : StreamRestoreInfo)
    (k : Nat) (es : List Event) :
    runLoop (goodEnv err) name ⟨none, k⟩ (Event.record r :: es) =
      ((runLoop (goodEnv err) name ⟨none, k + 1⟩ es).1,
        Action.writeReq UpdateMode.replace { r with device := name } 1 1
          :: (runLoop (goodEnv err) name ⟨none, k + 1⟩ es).2) := rfl

/-- A successful completion callback produces no actions and leaves the loop
state unchanged. -/
theorem runLoop_okResult_step (err name : String) (k : Nat) (es : List Event) :
    runLoop (goodEnv err) name ⟨none, k⟩ (Event.opResult 1 :: es) =
      runLoop (goodEnv err) name ⟨none, k⟩ es := rfl

/-- Processing a block of delivered records under a well-behaved service:
each record yields exactly one write request, in delivery order. -/
theorem runLoop_records_good (err name : String) (recs : List StreamRestoreInfo)
    (k : Nat) (rest : List Event) :
    runLoop (goodEnv err) name ⟨none, k⟩ (recs.map Event.record ++ rest) =
      ((runLoop (goodEnv err) name ⟨none, k + recs.length⟩ rest).1,
        recs.map (fun r => Action.writeReq UpdateMode.replace { r with device := name } 1 1)
          ++ (runLoop (goodEnv err) name ⟨none, k + recs.length⟩ rest).2) := by
  induction recs generalizing k with
  | nil => simp
  | cons r rs ih =>
    rw [List.map_cons, List.cons_append, runLoop_record_step, ih (k + 1)]
    have hk : k + 1 + rs.length = k + (rs.length + 1) := by omega
    simp [hk, List.length_cons]

/-- Processing a block of successful completion callbacks leaves the run
unchanged. -/
theorem runLoop_okResults_good {α : Type} (err name : String) (l : List α)
    (k : Nat) (rest : List Event) :
    runLoop (goodEnv err) name ⟨none, k⟩ (l.map (fun _ => Event.opResult 1) ++ rest) =
      runLoop (goodEnv err) name ⟨none, k⟩ rest := by
  induction l with
  | nil => simp
  | cons x xs ih =>
    rw [List.map_cons, List.cons_append, runLoop_okResult_step]
    exact ih

theorem runLoop_nil (env : Env) (name : String) (st : LoopState) :
    runLoop env name st [] = (st, []) := rfl

theorem runLoop_connecting_step (env : Env) (name : String) (k : Nat) (es : List Event) :
    runLoop env name ⟨none, k⟩ (Event.stateChange CtxState.connecting :: es) =
      runLoop env name ⟨none, k⟩ es := rfl

theorem runLoop_authorizing_step (env : Env) (name : String) (k : Nat) (es : List Event) :
    runLoop env name ⟨none, k⟩ (Event.stateChange CtxState.authorizing :: es) =
      runLoop env name ⟨none, k⟩ es := rfl

theorem runLoop_setting_name_step (env : Env) (name : String) (k : Nat) (es : List Event) :
    runLoop env name ⟨none, k⟩ (Event.stateChange CtxState.setting_name :: es) =
      runLoop env name ⟨none, k⟩ es := rfl

/-- The ready state triggers set_default_sink, which issues the
set-default-sink request and the stream-restore read request back-to-back. -/
theorem runLoop_ready_step (err name : String) (k : Nat) (es : List Event) :
    runLoop (goodEnv err) name ⟨none, k⟩ (Event.stateChange CtxState.ready :: es) =
      ((runLoop (goodEnv err) name ⟨none, k⟩ es).1,
        Action.setDefaultSinkReq name :: Action.streamRestoreReadReq name ::
          (runLoop (goodEnv err) name ⟨none, k⟩ es).2) := rfl

theorem runLoop_eol_step (err name : String) (k : Nat) (es : List Event) :
    runLoop (goodEnv err) name ⟨none, k⟩ (Event.endOfList :: es) =
      ((runLoop (goodEnv err) name ⟨none, k⟩ es).1,
        Action.drainRequested :: (runLoop (goodEnv err) name ⟨none, k⟩ es).2) := rfl

theorem runLoop_drainComplete_step (env : Env) (name : String) (k : Nat) (es : List Event) :
    runLoop env name ⟨none, k⟩ (Event.drainComplete :: es) =
      ((runLoop env name ⟨none, k⟩ es).1,
        Action.disconnect :: (runLoop env name ⟨none, k⟩ es).2) := rfl

theorem runLoop_terminated_step (env : Env) (name : String) (k : Nat) (es : List Event) :
    runLoop env name ⟨none, k⟩ (Event.stateChange CtxState.terminated :: es) =
      ((runLoop env name ⟨some 0, k⟩ es).1,
        Action.quit 0 :: (runLoop env name ⟨some 0, k⟩ es).2) := rfl

/-- Closed form of a whole normal run: the two sequencing requests, one write
per record in delivery order, the drain request, the disconnect and the final
quit with status 0. -/
theorem runProgram_normal (err name : String) (recs : List StreamRestoreInfo) :
    runProgram (goodEnv err) name (normalTrace recs) =
      (⟨some 0, recs.length⟩,
        Action.setDefaultSinkReq name :: Action.streamRestoreReadReq name ::
          (recs.map (fun r => Action.writeReq UpdateMode.replace { r with device := name } 1 1)
            ++ [Action.drainRequested, Action.disconnect, Action.quit 0])) := by
  unfold runProgram normalTrace
  simp only [List.append_assoc, List.cons_append, List.nil_append]
  rw [runLoop_connecting_step, runLoop_authorizing_step, runLoop_setting_name_step,
    runLoop_ready_step, runLoop_records_good, runLoop_eol_step, runLoop_okResult_step,
    runLoop_okResults_good, runLoop_drainComplete_step, runLoop_terminated_step,
    runLoop_nil]
  simp

theorem writesOf_writeReqs (name : String) (recs : List StreamRestoreInfo) :
    writesOf (recs.map (fun r =>
        Action.writeReq UpdateMode.replace { r with device := name } 1 1)) =
      recs.map (fun r => { r with device := name }) := by
  induction recs with
  | nil => rfl
  | cons r rs ih => simp [writesOf] at ih ⊢; exact ih

/-! ## Inputs for the counterexamples -/

/-- A service environment in which every write-operation creation fails
(pa_ext_stream_restore_write returns NULL) while everything else succeeds. -/
def cexEnvWrite : Env :=
  { setSinkOpCreated := true
    readOpCreated := true
    writeOpCreated := fun _ => false
    drainOpCreated := true
    errStr := "Access denied" }

/-- A concrete stream-restore record. -/
def cexRecord : StreamRestoreInfo :=
  { name := "sink-input-by-application-name:Music"
    channel_map := 2
    volume := 65536
    mute := 0
    device := "alsa_output.old" }

/-- An otherwise-normal event trace delivering one record. -/
def cexTraceWrite : List Event :=
  [Event.stateChange CtxState.connecting,
   Event.stateChange CtxState.authorizing,
   Event.stateChange CtxState.setting_name,
   Event.stateChange CtxState.ready,
   Event.record cexRecord,
   Event.endOfList,
   Event.opResult 1,
   Event.drainComplete,
   Event.stateChange CtxState.terminated]

/-- A library environment in which pa_context_connect fails after the
mainloop and the context were created. -/
def cexEnvMain : MainEnv :=
  { mainloopNewOk := true
    contextNewOk := true
    connectOk := false
    runOk := true
    runRet := 0
    errStr := "Connection refused" }

/-! ## Claims -/

/-- Claim C1, counterexample to the claim as stated: in a run where the
stream-restore write operation cannot be created (every other call
succeeding), the callback prints the error string but the loop does NOT
terminate with status 1 — stream_restore_cb returns without calling quit, the
run proceeds to drain and disconnect, and the loop exits with status 0. -/
theorem write_create_failure_claim_cex :
    (runProgram cexEnvWrite "new-sink" cexTraceWrite).1.quitCode = some 0 ∧
    Action.quit 1 ∉ (runProgram cexEnvWrite "new-sink" cexTraceWrite).2 ∧
    Action.print "pa_ext_stream_restore_write() failed: Access denied"
      ∈ (runProgram cexEnvWrite "new-sink" cexTraceWrite).2 := by
  decide

/-- Claim C1 (amended): if creating the stream-restore write operation fails
inside the enumeration callback, the program prints the service error string
and returns from the callback without issuing that write and without
terminating the event loop; unlike a callback-reported write failure, no quit
with status 1 is requested. -/
theorem write_create_failure_prints_and_returns (d : Bool) (err name : String)
    (i : StreamRestoreInfo) :
    stream_restore_cb false d err (some i) false name =
      some [Action.print ("pa_ext_stream_restore_write() failed: " ++ err)] := rfl

/-- Claim C2: against a reachable service delivering the records recs, the
run issues exactly one write request per delivered record (so exactly
recs.length writes), in delivery order with no reordering or deduplication,
and every written record equals the corresponding read record with only the
target-device field replaced by the supplied sink name. -/
theorem every_record_rewritten_in_order (err name : String)
    (recs : List StreamRestoreInfo) :
    writesOf (runProgram (goodEnv err) name (normalTrace recs)).2 =
      recs.map (fun r => { r with device := name }) := by
  rw [runProgram_normal]
  have hM := writesOf_writeReqs name recs
  simp only [writesOf] at hM ⊢
  simp [hM]

/-- Claim C3: reaching the ready state makes set_default_sink issue the
set-default-device request and then, immediately and in the same callback
activation (hence without waiting for the first completion), the
enumerate-stream-restore-records request carrying the target device name as
its userdata context. -/
theorem ready_issues_requests_back_to_back (err name : String) :
    set_default_sink true true err name =
      ([Action.setDefaultSinkReq name, Action.streamRestoreReadReq name], 0) ∧
    context_state_callback CtxState.ready true true err name =
      [Action.setDefaultSinkReq name, Action.streamRestoreReadReq name] :=
  ⟨rfl, rfl⟩

/-- Claim C4: with zero delivered records the run issues zero write requests,
the end-of-list branch of stream_restore_cb invokes drain directly (which
issues the drain request), and the run completes with exit status 0. -/
theorem zero_records_zero_writes_exit_zero (err name : String) :
    writesOf (runProgram (goodEnv err) name (normalTrace [])).2 = [] ∧
    (runProgram (goodEnv err) name (normalTrace [])).1.quitCode = some 0 ∧
    stream_restore_cb true true err none true name = some (drain true) := by
  refine ⟨?_, ?_, rfl⟩
  · rw [runProgram_normal]
    rfl
  · rw [runProgram_normal]

/-- Claim C5: on drain completion the program disconnects the connection; if
the drain operation cannot be created it disconnects immediately instead of
waiting; and the terminated state reached by disconnection makes the state
callback ask the loop to exit with status 0. -/
theorem drain_controller_disconnects (s r : Bool) (err name : String) :
    context_drain_complete = [Action.disconnect] ∧
    drain false = [Action.disconnect] ∧
    drain true = [Action.drainRequested] ∧
    context_state_callback CtxState.terminated s r err name = [Action.quit 0] :=
  ⟨rfl, rfl, rfl, rfl⟩

/-- Claim C6: a transition to the failed state makes the state callback print
the server-reported error string and quit the loop with status 1; at run
level, a run whose connection fails terminates with exit status 1 right at
the failure notification. -/
theorem failed_state_prints_and_exits_one (env : Env) (s r : Bool) (err name : String) :
    context_state_callback CtxState.failed s r err name =
      [Action.print ("connection failure: " ++ err), Action.quit 1] ∧
    (runProgram env name [Event.stateChange CtxState.connecting,
        Event.stateChange CtxState.failed]).1.quitCode = some 1 :=
  ⟨rfl, rfl⟩

/-- Claim C7: invoked with an argument count other than exactly one
positional argument, main prints the usage and banner text and returns status
0, and its action trace contains no connection attempt. -/
theorem wrong_argc_prints_usage_exits_zero (argv : List String) (env : MainEnv)
    (h : argv.length ≠ 2) :
    main_fn argv env = (0, [Action.print (usageText (argv.headD ""))]) ∧
    Action.connectReq ∉ (main_fn argv env).2 := by
  refine ⟨?_, ?_⟩ <;> simp [main_fn, h]

/-- Witness for C7 at the concrete invocation with no positional argument. -/
theorem wrong_argc_prints_usage_exits_zero_witness :
    main_fn ["paswitch"] ⟨true, true, true, true, 0, ""⟩ =
      (0, [Action.print (usageText "paswitch")]) ∧
    Action.connectReq ∉ (main_fn ["paswitch"] ⟨true, true, true, true, 0, ""⟩).2 :=
  wrong_argc_prints_usage_exits_zero ["paswitch"] ⟨true, true, true, true, 0, ""⟩
    (by decide)

/-- Claim C8, counterexample to the claim as stated: on the exit path where
pa_context_connect fails, main exits with status 1 after the mainloop and the
context were created, yet neither pa_mainloop_free nor pa_context_unref
appears in the trace — the objects are not released on every exit path. -/
theorem release_on_every_path_claim_cex :
    (main_fn ["paswitch", "somesink"] cexEnvMain).1 = 1 ∧
    Action.mainloopNew ∈ (main_fn ["paswitch", "somesink"] cexEnvMain).2 ∧
    Action.contextNew ∈ (main_fn ["paswitch", "somesink"] cexEnvMain).2 ∧
    Action.mainloopFree ∉ (main_fn ["paswitch", "somesink"] cexEnvMain).2 ∧
    Action.contextUnref ∉ (main_fn ["paswitch", "somesink"] cexEnvMain).2 := by
  decide

/-- Claim C8 (amended): on the normal exit path — setup succeeds and
pa_mainloop_run returns — the connection and the mainloop are each released
exactly once, in connect, run, disconnect, free order, whatever status the
loop reported; on early-failure exit paths the objects already created are
not released before exit. -/
theorem release_once_on_normal_path (a0 name err : String) (r : Int) :
    main_fn [a0, name] ⟨true, true, true, true, r, err⟩ =
      (r, [Action.mainloopNew, Action.proplistNew, Action.contextNew,
        Action.proplistFree, Action.connectReq, Action.setStateCallback name,
        Action.mainloopRun, Action.disconnect, Action.contextUnref,
        Action.signalDone, Action.mainloopFree]) := rfl

/-- Claim C9: every issued stream-restore write request uses
PA_UPDATE_REPLACE mode with n = 1 and the apply_immediately argument set
to 1. -/
theorem write_is_replace_apply_immediately (d : Bool) (err name : String)
    (i : StreamRestoreInfo) :
    stream_restore_cb true d err (some i) false name =
      some [Action.writeReq UpdateMode.replace { i with device := name } 1 1] := rfl

/-- Claim C10: with the end-of-list marker set, stream_restore_cb invokes
drain and returns without accessing the delivered record: its result is
defined (not the undefined-dereference value none) and identical for every
record argument, including the null record none. -/
theorem eol_never_dereferences_record (w d : Bool) (err name : String)
    (info : Option StreamRestoreInfo) :
    stream_restore_cb w d err info true name = some (drain d) := rfl

end Paswitch
